import Mathlib

/-!
Verification of the GreenChain sustainability & loan-risk scoring engine.

The definitions below are a shallow embedding of the Python source:
* `src/backend/src/services/advanced_satellite_service.py`
  (`check_deforestation`, `get_multi_temporal_ndvi`,
   `calculate_sustainability_score`, `calculate_loan_risk_score`)
* `src/backend/src/agents/multi_agent_system.py`
  (`field_scout_agent`, `risk_analyst_agent`, `loan_officer_agent`,
   `run_multi_agent_analysis` fallback sequential path)

Python floats are modelled as exact rationals (ℚ).  Python `round` is
round-half-to-even (`rhe`), `int()` is truncation toward zero (`pyTrunc`).
Purely presentational roundings of values that no claim inspects
(e.g. `round(x, 3)` applied to the echoed NDVI fields of output dicts)
are noted at each definition when omitted.
-/

namespace GreenChain

/-- Python `round(q)`: round half to even, as Python's builtin `round` does. -/
def rhe (q : ℚ) : ℤ :=
  if q - ⌊q⌋ < 1/2 then ⌊q⌋
  else if 1/2 < q - ⌊q⌋ then ⌊q⌋ + 1
  else if ⌊q⌋ % 2 = 0 then ⌊q⌋ else ⌊q⌋ + 1

/-- Python `round(q, 2)`. -/
def pyRound2 (q : ℚ) : ℚ := (rhe (q * 100) : ℚ) / 100

/-- Python `round(q, 3)`. -/
def pyRound3 (q : ℚ) : ℚ := (rhe (q * 1000) : ℚ) / 1000

/-- Python `int(q)`: truncation toward zero. -/
def pyTrunc (q : ℚ) : ℤ := if q < 0 then -⌊-q⌋ else ⌊q⌋

/-- `rhe` stays inside any integer interval containing its argument. -/
theorem rhe_bounds {a b : ℤ} {q : ℚ} (ha : (a : ℚ) ≤ q) (hb : q ≤ (b : ℚ)) :
    a ≤ rhe q ∧ rhe q ≤ b := by
  have hfa : a ≤ ⌊q⌋ := Int.le_floor.mpr ha
  have hfb : ⌊q⌋ ≤ b := by
    have := Int.floor_le_floor hb
    simpa using this
  unfold rhe
  by_cases hq : q = (b : ℚ)
  · have hfl : ⌊q⌋ = b := by rw [hq]; exact Int.floor_intCast b
    have hr : q - (⌊q⌋ : ℚ) = 0 := by rw [hfl, hq]; ring
    rw [hr]
    norm_num
    omega
  · have hlt : q < (b : ℚ) := lt_of_le_of_ne hb hq
    have hfb' : ⌊q⌋ < b := Int.floor_lt.mpr hlt
    split_ifs <;> omega

theorem pyTrunc_bounds {q : ℚ} (h0 : 0 ≤ q) (h1 : q ≤ 100) :
    0 ≤ pyTrunc q ∧ pyTrunc q ≤ 100 := by
  unfold pyTrunc
  rw [if_neg (not_lt.mpr h0)]
  constructor
  · exact Int.floor_nonneg.mpr h0
  · have : ⌊q⌋ ≤ ⌊(100 : ℚ)⌋ := Int.floor_le_floor h1
    simpa using this

/-! Section: Deforestation change detector

Embeds the decision core of `check_deforestation`
(`advanced_satellite_service.py`, lines 247-280).  Input fetching
(`_get_best_ndvi`) is external I/O; the detector proper receives the two
NDVI values.  The returned dict additionally applies `round(·, 3)` to
`deforestation_score`, `ndvi_historical`, `ndvi_recent` and
`change_detected` for display; the classification itself operates on the
unrounded values embedded here. -/

structure DeforestationAssessment where
  deforestation_detected : Bool
  risk_level : String
  deforestation_score : ℚ
  change_detected : ℚ
deriving DecidableEq

def check_deforestation (ndvi_historical ndvi_recent : ℚ) : DeforestationAssessment :=
  let change := ndvi_recent - ndvi_historical
  if ndvi_historical > 0.5 ∧ change < -0.2 then
    ⟨true, "high", min 1 (|change| * 2), change⟩
  else if ndvi_historical > 0.4 ∧ change < -0.15 then
    ⟨false, "medium", min 0.7 (|change| * 1.5), change⟩
  else if change < -0.1 then
    ⟨false, "low", min 0.4 |change|, change⟩
  else
    ⟨false, "none", 0, change⟩

/-! Section: Temporal vegetation analyzer

Embeds the trend-classification core of `get_multi_temporal_ndvi`
(`advanced_satellite_service.py`, lines 136-171), operating on the list of
monthly NDVI values extracted from the fetched imagery.  The consistency
score (`1 - 3*stddev`, line 154-155) involves a square root and is not
needed by any claim; it is left out of the record.  The returned dict
applies `round(·, 3)` to the echoed values for display. -/

structure TemporalAnalysis where
  ndvi_change : ℚ
  trend_direction : String
  trend_score : ℚ
deriving DecidableEq

/-- Lines 142-151: the trend classification applied to `ndvi_change`. -/
def classify_trend (ndvi_change : ℚ) : TemporalAnalysis :=
  if ndvi_change > 0.05 then ⟨ndvi_change, "improving", min 1 (0.7 + ndvi_change)⟩
  else if ndvi_change < -0.05 then ⟨ndvi_change, "declining", max 0.2 (0.5 + ndvi_change)⟩
  else ⟨ndvi_change, "stable", 0.6⟩

/-- Line 140: `ndvi_change = ndvi_values[-1] - ndvi_values[0]` when at
least two samples exist, else `0`; then the classification. -/
def get_multi_temporal_ndvi (ndvi_values : List ℚ) : TemporalAnalysis :=
  classify_trend
    (if ndvi_values.length ≥ 2 then ndvi_values.getLast?.getD 0 - ndvi_values.head?.getD 0
     else 0)

/-! Section: Composite sustainability scorer

Embeds `calculate_sustainability_score`
(`advanced_satellite_service.py`, lines 326-437).  The four raw inputs are
the dict entries the function reads: `temporal_data["trend_score"]`,
`temporal_data["consistency_score"]`, `deforestation_data["deforestation_score"]`
and `weather_data["weather_risk_score"]`. -/

structure SustainabilityScore where
  overall_score : ℤ
  grade : String
  trend_score : ℤ
  consistency_score : ℤ
  deforestation_score : ℤ
  climate_score : ℤ
  risk_factors : List String
  positive_factors : List String
deriving DecidableEq

def wTrend : ℚ := 0.30
def wConsistency : ℚ := 0.20
def wDeforestation : ℚ := 0.25
def wClimate : ℚ := 0.25

/-- The grade assignment of lines 383-398, applied to the unrounded
weighted sum. -/
def gradeOf (overall : ℚ) : String :=
  if overall ≥ 80 then "A"
  else if overall ≥ 65 then "B"
  else if overall ≥ 50 then "C"
  else if overall ≥ 35 then "D"
  else "F"

def calculate_sustainability_score
    (trend_raw consistency_raw deforestation_raw_score weather_risk_score : ℚ) :
    SustainabilityScore :=
  let deforestation_raw := 1 - deforestation_raw_score
  let climate_raw := 1 - weather_risk_score
  let t := pyTrunc (trend_raw * 100)
  let c := pyTrunc (consistency_raw * 100)
  let d := pyTrunc (deforestation_raw * 100)
  let cl := pyTrunc (climate_raw * 100)
  let overall : ℚ := t * wTrend + c * wConsistency + d * wDeforestation + cl * wClimate
  { overall_score := rhe overall
    grade := gradeOf overall
    trend_score := t
    consistency_score := c
    deforestation_score := d
    climate_score := cl
    risk_factors :=
      (if t < 40 then ["Declining vegetation health over time"] else []) ++
      (if c < 40 then ["Inconsistent farming patterns"] else []) ++
      (if d < 50 then ["Potential recent deforestation detected"] else []) ++
      (if cl < 40 then ["High climate/weather risk exposure"] else [])
    -- each `elif score > hi` guard: its `if score < lo` being false is
    -- already implied by `score > hi`, so the plain condition is kept
    positive_factors :=
      (if t > 70 then ["Improving vegetation health trend"] else []) ++
      (if c > 70 then ["Consistent and stable land management"] else []) ++
      (if d > 80 then ["No signs of recent deforestation"] else []) ++
      (if cl > 70 then ["Favorable climate conditions"] else []) }

/-! Section: Loan risk & terms calculator

Embeds `calculate_loan_risk_score`
(`advanced_satellite_service.py`, lines 440-526).  Strings are matched
exactly as Python `kw in purpose.lower()` substring containment. -/

def startsWithB : List Char → List Char → Bool
  | [], _ => true
  | _ :: _, [] => false
  | a :: as, b :: bs => a == b && startsWithB as bs

def hasSubstring (kw : List Char) : List Char → Bool
  | [] => startsWithB kw []
  | c :: cs => startsWithB kw (c :: cs) || hasSubstring kw cs

def sustainable_keywords : List String :=
  ["irrigation", "organic", "solar", "conservation", "drip", "sustainable", "renewable"]

def sustainable_purpose (purpose : String) : Bool :=
  sustainable_keywords.any fun kw =>
    hasSubstring kw.data (purpose.data.map Char.toLower)

/-- The amount step surcharge of lines 467-475. -/
def amount_risk (loan_amount : ℚ) : ℚ :=
  if loan_amount ≤ 500 then 0
  else if loan_amount ≤ 2000 then 10
  else if loan_amount ≤ 5000 then 20
  else 30

structure LoanRiskAssessment where
  risk_score : ℤ
  approval_likelihood : String
  suggested_interest_rate : ℚ
  max_recommended_amount : ℚ
  decision_factors : List String
deriving DecidableEq

def calculate_loan_risk_score
    (sustainability : SustainabilityScore) (loan_amount : ℚ) (purpose : String) :
    LoanRiskAssessment :=
  let sustainability_score := sustainability.overall_score
  let base_risk : ℚ := 100 - sustainability_score
  let purpose_adjustment : ℚ := if sustainable_purpose purpose then -10 else 0
  let risk_score : ℚ := max 0 (min 100 (base_risk + amount_risk loan_amount + purpose_adjustment))
  let tier : String × ℚ × ℚ :=
    if risk_score ≤ 30 then ("high", 0.08, min (loan_amount * 2) 10000)
    else if risk_score ≤ 50 then ("medium", 0.12, loan_amount * 1.2)
    else if risk_score ≤ 70 then ("low", 0.18, loan_amount * 0.7)
    else ("very_low", 0.25, loan_amount * 0.3)
  { risk_score := rhe risk_score
    approval_likelihood := tier.1
    suggested_interest_rate := tier.2.1
    max_recommended_amount := pyRound2 tier.2.2
    decision_factors :=
      ["Sustainability score: " ++ toString sustainability_score ++ "/100 (" ++
        sustainability.grade ++ ")"] ++
      sustainability.risk_factors.map (fun f => "⚠️ " ++ f) ++
      sustainability.positive_factors.map (fun f => "✓ " ++ f) ++
      (if sustainable_purpose purpose then
        ["✓ Sustainable loan purpose (rate reduction applied)"] else []) }

/-! Section: Multi-agent pipeline

Embeds `multi_agent_system.py`.  The external fetches (`get_farm_ndvi`,
`get_weather_analysis`) are modelled as already-resolved `Except` values:
`Except.error e` is the fetch raising an exception with message `e`, which
the Field Scout catches (lines 89-105), substituting the fallback dicts
`{"error": e, "ndvi_score": 0.0}` and `{"error": e, "weather_risk_score": 0.5}`.
The fallback weather dict carries no `drought_risk_score` key, hence that
field is an `Option`; the Risk Analyst reads it with default `0.5`
(line 158).  The pipeline is the fallback sequential path of
`run_multi_agent_analysis` (lines 419-425); in that path each agent's
returned `agent_trace` value replaces the previous one (dict spread),
exactly as in the source.  Free-text report fields (`field_report`,
`risk_analysis`, `reasoning`, `recommendations`) are presentation strings
omitted from the state. -/

structure SatData where
  ndvi_score : ℚ
deriving DecidableEq

structure WeatherData where
  weather_risk_score : ℚ
  drought_risk_score : Option ℚ
deriving DecidableEq

structure RiskScores where
  vegetation_score : ℚ
  climate_score : ℚ
  sustainability_score : ℚ
  composite_score : ℚ
  risk_level : String
deriving DecidableEq

structure AgentState where
  loan_purpose : String
  satellite_data : Option SatData
  weather_data : Option WeatherData
  risk_scores : Option RiskScores
  composite_score : Option ℚ
  final_decision : Option String
  confidence : Option ℚ
  certificate_eligible : Option Bool
  agent_trace : List String
  errors : Option (List String)
deriving DecidableEq

def initial_state (purpose : String) : AgentState :=
  ⟨purpose, none, none, none, none, none, none, none, [], none⟩

def field_scout_agent (satFetch : Except String SatData)
    (weatherFetch : Except String WeatherData) (state : AgentState) : AgentState :=
  let satPart : SatData × List String :=
    match satFetch with
    | .ok d => (d, [])
    | .error e => (⟨0⟩, ["Satellite error: " ++ e])
  let weatherPart : WeatherData × List String :=
    match weatherFetch with
    | .ok d => (d, [])
    | .error e => (⟨0.5, none⟩, ["Weather error: " ++ e])
  let errs := satPart.2 ++ weatherPart.2
  { state with
    satellite_data := some satPart.1
    weather_data := some weatherPart.1
    agent_trace := ["field_scout"]
    errors := if errs.isEmpty then none else some errs }

/-- The risk-level label of `risk_analyst_agent`, line 188. -/
def risk_analyst_risk_level (composite_score : ℚ) : String :=
  if composite_score > 0.6 then "LOW"
  else if composite_score > 0.4 then "MEDIUM"
  else "HIGH"

def risk_analyst_agent (state : AgentState) : AgentState :=
  let ndvi_score := (state.satellite_data.map SatData.ndvi_score).getD 0
  let weather_risk := (state.weather_data.map WeatherData.weather_risk_score).getD 0.5
  let drought_risk := (state.weather_data.bind WeatherData.drought_risk_score).getD 0.5
  let vegetation_score := if ndvi_score > 0 then min 1 (ndvi_score / 0.8) else 0
  let climate_score := 1 - weather_risk
  let sustainability_score := 1 - drought_risk
  let composite_score :=
    vegetation_score * 0.40 + climate_score * 0.30 + sustainability_score * 0.30
  { state with
    risk_scores := some
      ⟨pyRound3 vegetation_score, pyRound3 climate_score, pyRound3 sustainability_score,
        pyRound3 composite_score, risk_analyst_risk_level composite_score⟩
    composite_score := some composite_score
    agent_trace := ["risk_analyst"] }

/-- The decision label of `loan_officer_agent`, lines 250-293. -/
def loan_officer_decision (composite_score : ℚ) : String :=
  if composite_score ≥ 0.6 then "APPROVED"
  else if composite_score ≥ 0.4 then "CONDITIONAL"
  else "REJECTED"

/-- The (pre-rounding) confidence of `loan_officer_agent`,
lines 252, 270 and 294. -/
def loan_officer_confidence (composite_score : ℚ) : ℚ :=
  if composite_score ≥ 0.6 then min 0.95 (0.75 + composite_score * 0.2)
  else if composite_score ≥ 0.4 then 0.65 + composite_score * 0.15
  else 0.70 + (1 - composite_score) * 0.2

def loan_officer_agent (state : AgentState) : AgentState :=
  let composite_score := state.composite_score.getD 0
  { state with
    final_decision := some (loan_officer_decision composite_score)
    confidence := some (pyRound2 (loan_officer_confidence composite_score))
    certificate_eligible := some (decide (composite_score ≥ 0.4))
    agent_trace := ["loan_officer"] }

/-- The fallback sequential path of `run_multi_agent_analysis`
(lines 419-425): Field Scout → Risk Analyst → Loan Officer. -/
def run_multi_agent_analysis (satFetch : Except String SatData)
    (weatherFetch : Except String WeatherData) (purpose : String) : AgentState :=
  loan_officer_agent (risk_analyst_agent
    (field_scout_agent satFetch weatherFetch (initial_state purpose)))

/-- Following the spec's words for §4.5: the distance of a composite score
from the nearer of the two decision thresholds 0.6 and 0.4.  Used only to
compare the spec's "confidence scales linearly with distance from the
nearer threshold" against the code's confidence. -/
def distance_to_nearer_threshold (composite_score : ℚ) : ℚ :=
  min |composite_score - 0.6| |composite_score - 0.4|

/-! Section: Claims -/

/-- C1 (counterexample): at `historical = 0.45`, `recent = 0.29` the
precondition of the second deforestation rule holds (the first rule does
not fire, `historical > 0.4`, `change = -0.16 < -0.15`), the result is
`risk_level = "medium"` with `score = min 0.7 (|change| * 1.5)`, but
`deforestation_detected` is `false`, not `true` as claimed: the source
sets `deforestation_detected = True` only in the first (high) branch. -/
theorem check_deforestation_medium_not_detected :
    ¬ ((0.45 : ℚ) > 0.5 ∧ (0.29 : ℚ) - 0.45 < -0.2) ∧
    (0.45 : ℚ) > 0.4 ∧ (0.29 : ℚ) - 0.45 < -0.15 ∧
    (check_deforestation 0.45 0.29).risk_level = "medium" ∧
    (check_deforestation 0.45 0.29).deforestation_score =
      min 0.7 (|(0.29 : ℚ) - 0.45| * 1.5) ∧
    (check_deforestation 0.45 0.29).deforestation_detected = false := by
  norm_num [check_deforestation, min_def, abs, max_def]

/-- C1 (amended): when the first deforestation rule does not fire and
`historical > 0.4` and `change < -0.15`, the result has
`risk_level = "medium"`, `score = min 0.7 (|change| * 1.5)` and
`detected = false` (not `true`: only the high branch sets the flag). -/
theorem check_deforestation_medium_rule (h r : ℚ)
    (h1 : ¬ (h > 0.5 ∧ r - h < -0.2)) (h2 : h > 0.4) (h3 : r - h < -0.15) :
    check_deforestation h r = ⟨false, "medium", min 0.7 (|r - h| * 1.5), r - h⟩ := by
  simp only [check_deforestation]
  rw [if_neg h1, if_pos ⟨h2, h3⟩]

theorem check_deforestation_medium_rule_witness :
    ¬ ((0.45 : ℚ) > 0.5 ∧ (0.29 : ℚ) - 0.45 < -0.2) ∧
    (0.45 : ℚ) > 0.4 ∧ (0.29 : ℚ) - 0.45 < -0.15 ∧
    check_deforestation 0.45 0.29 =
      ⟨false, "medium", min 0.7 (|(0.29 : ℚ) - 0.45| * 1.5), (0.29 : ℚ) - 0.45⟩ :=
  ⟨by norm_num, by norm_num, by norm_num,
    check_deforestation_medium_rule 0.45 0.29 (by norm_num) (by norm_num) (by norm_num)⟩

/-- C6: every result of `check_deforestation` with
`deforestation_detected = true` has `risk_level` `"medium"` or `"high"`;
no result pairs `detected = true` with `"none"` or `"low"`. -/
theorem check_deforestation_detected_implies_medium_or_high (h r : ℚ)
    (hd : (check_deforestation h r).deforestation_detected = true) :
    (check_deforestation h r).risk_level = "medium" ∨
    (check_deforestation h r).risk_level = "high" := by
  simp only [check_deforestation] at hd ⊢
  split_ifs at hd ⊢
  all_goals simp_all

theorem check_deforestation_detected_witness :
    (check_deforestation 0.65 0.35).deforestation_detected = true ∧
    ((check_deforestation 0.65 0.35).risk_level = "medium" ∨
     (check_deforestation 0.65 0.35).risk_level = "high") :=
  ⟨by norm_num [check_deforestation], check_deforestation_detected_implies_medium_or_high
    0.65 0.35 (by norm_num [check_deforestation])⟩

/-- C7: the temporal analyzer classifies `change = ndvi[last] - ndvi[first]`
with thresholds ±0.05 (`> 0.05` improving with `min 1 (0.7 + change)`,
`< -0.05` declining with `max 0.2 (0.5 + change)`, otherwise stable with
`0.6`), and the series `[0.40, 0.42, 0.45, 0.50, 0.55, 0.60]` yields
change `+0.20`, trend `"improving"` and trend score `0.90`. -/
theorem temporal_trend_thresholds (vs : List ℚ) (hlen : vs.length ≥ 2) :
    get_multi_temporal_ndvi vs = classify_trend (vs.getLast?.getD 0 - vs.head?.getD 0) ∧
    (∀ ch : ℚ, ch > 0.05 → classify_trend ch = ⟨ch, "improving", min 1 (0.7 + ch)⟩) ∧
    (∀ ch : ℚ, ch < -0.05 → classify_trend ch = ⟨ch, "declining", max 0.2 (0.5 + ch)⟩) ∧
    (∀ ch : ℚ, -0.05 ≤ ch → ch ≤ 0.05 → classify_trend ch = ⟨ch, "stable", 0.6⟩) ∧
    get_multi_temporal_ndvi [0.40, 0.42, 0.45, 0.50, 0.55, 0.60] =
      ⟨0.20, "improving", 0.90⟩ := by
  refine ⟨?_, ?_, ?_, ?_, ?_⟩
  · unfold get_multi_temporal_ndvi
    rw [if_pos hlen]
  · intro ch h
    unfold classify_trend
    rw [if_pos h]
  · intro ch h
    unfold classify_trend
    rw [if_neg (by linarith : ¬ ch > 0.05), if_pos h]
  · intro ch h1 h2
    unfold classify_trend
    rw [if_neg (by linarith : ¬ ch > 0.05), if_neg (by linarith : ¬ ch < -0.05)]
  · norm_num [get_multi_temporal_ndvi, classify_trend, List.getLast?, List.getLast, min_def]

theorem temporal_trend_thresholds_witness :
    ([(0.40 : ℚ), 0.42, 0.45, 0.50, 0.55, 0.60].length ≥ 2) ∧
    get_multi_temporal_ndvi [0.40, 0.42, 0.45, 0.50, 0.55, 0.60] =
      ⟨0.20, "improving", 0.90⟩ :=
  ⟨by norm_num,
    (temporal_trend_thresholds [0.40, 0.42, 0.45, 0.50, 0.55, 0.60] (by norm_num)).2.2.2.2⟩

/-- C5: with `overall_score = 72`, amount `1500` and purpose
`"drip irrigation upgrade"`, the loan calculator yields risk score 28
(base 28, amount surcharge +10, sustainable-purpose discount -10),
likelihood `"high"`, rate `0.08`, and max recommended amount `3000`. -/
theorem loan_risk_scenario :
    amount_risk 1500 = 10 ∧
    sustainable_purpose "drip irrigation upgrade" = true ∧
    (calculate_loan_risk_score ⟨72, "B", 0, 0, 0, 0, [], []⟩ 1500
      "drip irrigation upgrade").risk_score = 28 ∧
    (calculate_loan_risk_score ⟨72, "B", 0, 0, 0, 0, [], []⟩ 1500
      "drip irrigation upgrade").approval_likelihood = "high" ∧
    (calculate_loan_risk_score ⟨72, "B", 0, 0, 0, 0, [], []⟩ 1500
      "drip irrigation upgrade").suggested_interest_rate = 0.08 ∧
    (calculate_loan_risk_score ⟨72, "B", 0, 0, 0, 0, [], []⟩ 1500
      "drip irrigation upgrade").max_recommended_amount = 3000 := by
  have hsp : sustainable_purpose "drip irrigation upgrade" = true := by decide
  refine ⟨by norm_num [amount_risk], hsp, ?_, ?_, ?_, ?_⟩ <;>
    norm_num [calculate_loan_risk_score, amount_risk, hsp, pyRound2, rhe, Int.fract,
      min_def, max_def]

/-- C3 (counterexample): the loan calculator invoked with the non-positive
amount `0` raises no validation error and produces a full decision payload
(risk score 50, likelihood `"medium"`, rate `0.12`, max amount `0`): the
claim that amount ≤ 0 is rejected before any stage runs is false — no
code path validates the amount (`lambda_handler` checks only that
latitude and longitude are present). -/
theorem loan_calculator_accepts_nonpositive_amount :
    (0 : ℚ) ≤ 0 ∧
    (calculate_loan_risk_score ⟨50, "C", 50, 50, 50, 50, [], []⟩ 0 "").risk_score = 50 ∧
    (calculate_loan_risk_score ⟨50, "C", 50, 50, 50, 50, [], []⟩ 0
      "").approval_likelihood = "medium" ∧
    (calculate_loan_risk_score ⟨50, "C", 50, 50, 50, 50, [], []⟩ 0
      "").suggested_interest_rate = 0.12 ∧
    (calculate_loan_risk_score ⟨50, "C", 50, 50, 50, 50, [], []⟩ 0
      "").max_recommended_amount = 0 := by
  have hsp : sustainable_purpose "" = false := by decide
  norm_num [calculate_loan_risk_score, amount_risk, hsp, pyRound2, rhe, Int.fract,
    min_def, max_def]

/-- C3 (amended): no loan-amount validation exists.  For every non-positive
amount the calculator applies the `≤ 500` surcharge of `0` and returns a
full assessment whose likelihood is one of the four tiers; nothing rejects
the request. -/
theorem loan_calculator_no_amount_validation (s : SustainabilityScore)
    (amount : ℚ) (purpose : String) (h : amount ≤ 0) :
    amount_risk amount = 0 ∧
    ((calculate_loan_risk_score s amount purpose).approval_likelihood = "high" ∨
     (calculate_loan_risk_score s amount purpose).approval_likelihood = "medium" ∨
     (calculate_loan_risk_score s amount purpose).approval_likelihood = "low" ∨
     (calculate_loan_risk_score s amount purpose).approval_likelihood = "very_low") := by
  constructor
  · unfold amount_risk
    rw [if_pos (le_trans h (by norm_num))]
  · simp only [calculate_loan_risk_score]
    split_ifs <;> simp

theorem loan_calculator_no_amount_validation_witness :
    (-250 : ℚ) ≤ 0 ∧
    (amount_risk (-250) = 0 ∧
      ((calculate_loan_risk_score ⟨50, "C", 50, 50, 50, 50, [], []⟩ (-250)
        "seeds").approval_likelihood = "high" ∨
       (calculate_loan_risk_score ⟨50, "C", 50, 50, 50, 50, [], []⟩ (-250)
        "seeds").approval_likelihood = "medium" ∨
       (calculate_loan_risk_score ⟨50, "C", 50, 50, 50, 50, [], []⟩ (-250)
        "seeds").approval_likelihood = "low" ∨
       (calculate_loan_risk_score ⟨50, "C", 50, 50, 50, 50, [], []⟩ (-250)
        "seeds").approval_likelihood = "very_low")) :=
  ⟨by norm_num, loan_calculator_no_amount_validation ⟨50, "C", 50, 50, 50, 50, [], []⟩
    (-250) "seeds" (by norm_num)⟩

/-- C2 (counterexample): the claim's uniform 40/70 thresholds do not hold
for the deforestation component.  With raw inputs `(0.5, 0.5, 0.25, 0.5)`
the deforestation component score is `75 > 70`, yet the positive-factor
list is empty: the code uses `> 80` (and `< 50`) for this component, not
`> 70` (and `< 40`). -/
theorem deforestation_factor_threshold_counterexample :
    (calculate_sustainability_score 0.5 0.5 0.25 0.5).deforestation_score = 75 ∧
    ((75 : ℤ) > 70) ∧
    (calculate_sustainability_score 0.5 0.5 0.25 0.5).positive_factors = [] ∧
    (calculate_sustainability_score 0.5 0.5 0.25 0.5).positive_factors.count
      "No signs of recent deforestation" = 0 := by
  norm_num [calculate_sustainability_score, pyTrunc]

set_option maxHeartbeats 1000000 in
/-- C2 (amended): factor extraction is threshold-driven and independent per
component, contributing at most one risk and one positive factor each; the
thresholds are 40/70 for the trend, consistency and climate components,
but 50/80 for the deforestation component. -/
theorem sustainability_factor_thresholds (tr c dsc wr : ℚ) (s : SustainabilityScore)
    (hs : s = calculate_sustainability_score tr c dsc wr) :
    (s.risk_factors.count "Declining vegetation health over time" =
      if s.trend_score < 40 then 1 else 0) ∧
    (s.positive_factors.count "Improving vegetation health trend" =
      if s.trend_score > 70 then 1 else 0) ∧
    (s.risk_factors.count "Inconsistent farming patterns" =
      if s.consistency_score < 40 then 1 else 0) ∧
    (s.positive_factors.count "Consistent and stable land management" =
      if s.consistency_score > 70 then 1 else 0) ∧
    (s.risk_factors.count "Potential recent deforestation detected" =
      if s.deforestation_score < 50 then 1 else 0) ∧
    (s.positive_factors.count "No signs of recent deforestation" =
      if s.deforestation_score > 80 then 1 else 0) ∧
    (s.risk_factors.count "High climate/weather risk exposure" =
      if s.climate_score < 40 then 1 else 0) ∧
    (s.positive_factors.count "Favorable climate conditions" =
      if s.climate_score > 70 then 1 else 0) ∧
    s.risk_factors.length ≤ 4 ∧ s.positive_factors.length ≤ 4 := by
  subst hs
  simp only [calculate_sustainability_score]
  split_ifs <;> simp [List.count_append, List.count_cons, List.count_nil]

theorem sustainability_factor_thresholds_witness :
    calculate_sustainability_score 0.2 0.8 0.6 0.1 =
      calculate_sustainability_score 0.2 0.8 0.6 0.1 ∧
    ((calculate_sustainability_score 0.2 0.8 0.6 0.1).risk_factors.count
        "Declining vegetation health over time" =
      if (calculate_sustainability_score 0.2 0.8 0.6 0.1).trend_score < 40
        then 1 else 0) ∧
    ((calculate_sustainability_score 0.2 0.8 0.6 0.1).positive_factors.count
        "Improving vegetation health trend" =
      if (calculate_sustainability_score 0.2 0.8 0.6 0.1).trend_score > 70
        then 1 else 0) ∧
    ((calculate_sustainability_score 0.2 0.8 0.6 0.1).risk_factors.count
        "Inconsistent farming patterns" =
      if (calculate_sustainability_score 0.2 0.8 0.6 0.1).consistency_score < 40
        then 1 else 0) ∧
    ((calculate_sustainability_score 0.2 0.8 0.6 0.1).positive_factors.count
        "Consistent and stable land management" =
      if (calculate_sustainability_score 0.2 0.8 0.6 0.1).consistency_score > 70
        then 1 else 0) ∧
    ((calculate_sustainability_score 0.2 0.8 0.6 0.1).risk_factors.count
        "Potential recent deforestation detected" =
      if (calculate_sustainability_score 0.2 0.8 0.6 0.1).deforestation_score < 50
        then 1 else 0) ∧
    ((calculate_sustainability_score 0.2 0.8 0.6 0.1).positive_factors.count
        "No signs of recent deforestation" =
      if (calculate_sustainability_score 0.2 0.8 0.6 0.1).deforestation_score > 80
        then 1 else 0) ∧
    ((calculate_sustainability_score 0.2 0.8 0.6 0.1).risk_factors.count
        "High climate/weather risk exposure" =
      if (calculate_sustainability_score 0.2 0.8 0.6 0.1).climate_score < 40
        then 1 else 0) ∧
    ((calculate_sustainability_score 0.2 0.8 0.6 0.1).positive_factors.count
        "Favorable climate conditions" =
      if (calculate_sustainability_score 0.2 0.8 0.6 0.1).climate_score > 70
        then 1 else 0) ∧
    (calculate_sustainability_score 0.2 0.8 0.6 0.1).risk_factors.length ≤ 4 ∧
    (calculate_sustainability_score 0.2 0.8 0.6 0.1).positive_factors.length ≤ 4 :=
  ⟨rfl, sustainability_factor_thresholds 0.2 0.8 0.6 0.1
    (calculate_sustainability_score 0.2 0.8 0.6 0.1) rfl⟩

/-- Rank of a grade letter, higher = better; used to state that no lower
overall score ever gets a better grade. -/
def gradeRank (g : String) : ℕ :=
  match g with
  | "A" => 4
  | "B" => 3
  | "C" => 2
  | "D" => 1
  | _ => 0

/-- How many of the five grade bands (≥80 A, 65..79 B, 50..64 C, 35..49 D,
<35 F) a value falls into. -/
def gradeMatchCount (x : ℚ) : ℕ :=
  (if x ≥ 80 then 1 else 0) + (if 65 ≤ x ∧ x < 80 then 1 else 0) +
  (if 50 ≤ x ∧ x < 65 then 1 else 0) + (if 35 ≤ x ∧ x < 50 then 1 else 0) +
  (if x < 35 then 1 else 0)

theorem gradeMatchCount_eq_one (x : ℚ) : gradeMatchCount x = 1 := by
  unfold gradeMatchCount
  rcases le_or_lt 80 x with h80 | h80
  · rw [if_pos (by linarith : x ≥ 80), if_neg (by rintro ⟨-, b⟩; linarith),
      if_neg (by rintro ⟨-, b⟩; linarith), if_neg (by rintro ⟨-, b⟩; linarith),
      if_neg (by linarith : ¬ x < 35)]
  · rcases le_or_lt 65 x with h65 | h65
    · rw [if_neg (by intro a; linarith : ¬ x ≥ 80), if_pos ⟨h65, h80⟩,
        if_neg (by rintro ⟨-, b⟩; linarith), if_neg (by rintro ⟨-, b⟩; linarith),
        if_neg (by linarith : ¬ x < 35)]
    · rcases le_or_lt 50 x with h50 | h50
      · rw [if_neg (by intro a; linarith : ¬ x ≥ 80), if_neg (by rintro ⟨a, -⟩; linarith),
          if_pos ⟨h50, h65⟩, if_neg (by rintro ⟨-, b⟩; linarith),
          if_neg (by linarith : ¬ x < 35)]
      · rcases le_or_lt 35 x with h35 | h35
        · rw [if_neg (by intro a; linarith : ¬ x ≥ 80), if_neg (by rintro ⟨a, -⟩; linarith),
            if_neg (by rintro ⟨a, -⟩; linarith), if_pos ⟨h35, h50⟩,
            if_neg (by linarith : ¬ x < 35)]
        · rw [if_neg (by intro a; linarith : ¬ x ≥ 80), if_neg (by rintro ⟨a, -⟩; linarith),
            if_neg (by rintro ⟨a, -⟩; linarith), if_neg (by rintro ⟨a, -⟩; linarith),
            if_pos h35]

set_option maxHeartbeats 1600000 in
theorem gradeOf_mono {x y : ℚ} (h : x ≤ y) :
    gradeRank (gradeOf x) ≤ gradeRank (gradeOf y) := by
  unfold gradeOf
  split_ifs <;> first | decide | linarith

set_option maxHeartbeats 1000000 in
/-- C4: with all four raw component inputs in [0,1], the overall score is
the half-even-rounded weighted sum of the integer-scaled component scores
with weights 0.30/0.20/0.25/0.25 summing to exactly 1, lies in [0,100],
falls in exactly one grade band, and the grade assignment is monotone:
a smaller overall value never receives a better grade. -/
theorem sustainability_overall_invariants (tr c dsc wr : ℚ) (s : SustainabilityScore)
    (hs : s = calculate_sustainability_score tr c dsc wr)
    (htr0 : 0 ≤ tr) (htr1 : tr ≤ 1) (hc0 : 0 ≤ c) (hc1 : c ≤ 1)
    (hd0 : 0 ≤ dsc) (hd1 : dsc ≤ 1) (hw0 : 0 ≤ wr) (hw1 : wr ≤ 1) :
    wTrend + wConsistency + wDeforestation + wClimate = 1 ∧
    s.overall_score = rhe ((s.trend_score : ℚ) * wTrend +
      (s.consistency_score : ℚ) * wConsistency +
      (s.deforestation_score : ℚ) * wDeforestation +
      (s.climate_score : ℚ) * wClimate) ∧
    (0 ≤ s.overall_score ∧ s.overall_score ≤ 100) ∧
    gradeMatchCount ((s.overall_score : ℤ) : ℚ) = 1 ∧
    (∀ s1 s2 : ℚ, s1 < s2 → gradeRank (gradeOf s1) ≤ gradeRank (gradeOf s2)) := by
  have ht := pyTrunc_bounds (q := tr * 100) (by linarith) (by linarith)
  have hcc := pyTrunc_bounds (q := c * 100) (by linarith) (by linarith)
  have hd := pyTrunc_bounds (q := (1 - dsc) * 100) (by linarith) (by linarith)
  have hcl := pyTrunc_bounds (q := (1 - wr) * 100) (by linarith) (by linarith)
  have ht0 : (0 : ℚ) ≤ (pyTrunc (tr * 100) : ℚ) := by exact_mod_cast ht.1
  have ht1 : (pyTrunc (tr * 100) : ℚ) ≤ 100 := by exact_mod_cast ht.2
  have hcc0 : (0 : ℚ) ≤ (pyTrunc (c * 100) : ℚ) := by exact_mod_cast hcc.1
  have hcc1 : (pyTrunc (c * 100) : ℚ) ≤ 100 := by exact_mod_cast hcc.2
  have hd0' : (0 : ℚ) ≤ (pyTrunc ((1 - dsc) * 100) : ℚ) := by exact_mod_cast hd.1
  have hd1' : (pyTrunc ((1 - dsc) * 100) : ℚ) ≤ 100 := by exact_mod_cast hd.2
  have hcl0 : (0 : ℚ) ≤ (pyTrunc ((1 - wr) * 100) : ℚ) := by exact_mod_cast hcl.1
  have hcl1 : (pyTrunc ((1 - wr) * 100) : ℚ) ≤ 100 := by exact_mod_cast hcl.2
  have hov0 : (0 : ℚ) ≤ (pyTrunc (tr * 100) : ℚ) * wTrend +
      (pyTrunc (c * 100) : ℚ) * wConsistency +
      (pyTrunc ((1 - dsc) * 100) : ℚ) * wDeforestation +
      (pyTrunc ((1 - wr) * 100) : ℚ) * wClimate := by
    unfold wTrend wConsistency wDeforestation wClimate
    nlinarith
  have hov1 : (pyTrunc (tr * 100) : ℚ) * wTrend +
      (pyTrunc (c * 100) : ℚ) * wConsistency +
      (pyTrunc ((1 - dsc) * 100) : ℚ) * wDeforestation +
      (pyTrunc ((1 - wr) * 100) : ℚ) * wClimate ≤ 100 := by
    unfold wTrend wConsistency wDeforestation wClimate
    nlinarith
  have hrb := rhe_bounds (a := 0) (b := 100)
    (by exact_mod_cast hov0) (by exact_mod_cast hov1)
  subst hs
  refine ⟨by norm_num [wTrend, wConsistency, wDeforestation, wClimate], ?_, ?_, ?_,
    fun s1 s2 hlt => gradeOf_mono (le_of_lt hlt)⟩
  · simp only [calculate_sustainability_score]
  · simp only [calculate_sustainability_score]
    exact hrb
  · simp only [calculate_sustainability_score]
    exact gradeMatchCount_eq_one _

theorem sustainability_overall_invariants_witness :
    calculate_sustainability_score 0.8 0.9 0.1 0.2 =
      calculate_sustainability_score 0.8 0.9 0.1 0.2 ∧
    ((0 : ℚ) ≤ 0.8 ∧ (0.8 : ℚ) ≤ 1) ∧ ((0 : ℚ) ≤ 0.9 ∧ (0.9 : ℚ) ≤ 1) ∧
    ((0 : ℚ) ≤ 0.1 ∧ (0.1 : ℚ) ≤ 1) ∧ ((0 : ℚ) ≤ 0.2 ∧ (0.2 : ℚ) ≤ 1) ∧
    (wTrend + wConsistency + wDeforestation + wClimate = 1 ∧
      (calculate_sustainability_score 0.8 0.9 0.1 0.2).overall_score =
        rhe (((calculate_sustainability_score 0.8 0.9 0.1 0.2).trend_score : ℚ) * wTrend +
          ((calculate_sustainability_score 0.8 0.9 0.1 0.2).consistency_score : ℚ) *
            wConsistency +
          ((calculate_sustainability_score 0.8 0.9 0.1 0.2).deforestation_score : ℚ) *
            wDeforestation +
          ((calculate_sustainability_score 0.8 0.9 0.1 0.2).climate_score : ℚ) * wClimate) ∧
      (0 ≤ (calculate_sustainability_score 0.8 0.9 0.1 0.2).overall_score ∧
        (calculate_sustainability_score 0.8 0.9 0.1 0.2).overall_score ≤ 100) ∧
      gradeMatchCount (((calculate_sustainability_score 0.8 0.9 0.1 0.2).overall_score :
        ℤ) : ℚ) = 1 ∧
      (∀ s1 s2 : ℚ, s1 < s2 → gradeRank (gradeOf s1) ≤ gradeRank (gradeOf s2))) :=
  ⟨rfl, ⟨by norm_num, by norm_num⟩, ⟨by norm_num, by norm_num⟩,
    ⟨by norm_num, by norm_num⟩, ⟨by norm_num, by norm_num⟩,
    sustainability_overall_invariants 0.8 0.9 0.1 0.2
      (calculate_sustainability_score 0.8 0.9 0.1 0.2) rfl
      (by norm_num) (by norm_num) (by norm_num) (by norm_num)
      (by norm_num) (by norm_num) (by norm_num) (by norm_num)⟩

theorem pyRound2_bounds {a b : ℤ} {q : ℚ} (ha : (a : ℚ) / 100 ≤ q) (hb : q ≤ (b : ℚ) / 100) :
    (a : ℚ) / 100 ≤ pyRound2 q ∧ pyRound2 q ≤ (b : ℚ) / 100 := by
  have h1 : (a : ℚ) ≤ q * 100 := by linarith
  have h2 : q * 100 ≤ (b : ℚ) := by linarith
  obtain ⟨l, r⟩ := rhe_bounds h1 h2
  have l' : (a : ℚ) ≤ (rhe (q * 100) : ℚ) := by exact_mod_cast l
  have r' : (rhe (q * 100) : ℚ) ≤ (b : ℚ) := by exact_mod_cast r
  unfold pyRound2
  constructor <;> linarith

/-- C8 (counterexample): composite scores 0.45 and 0.55 are both at
distance 0.05 from their nearer decision threshold and both CONDITIONAL,
yet their reported (2-decimal-rounded) confidences differ (0.72 vs 0.73):
confidence is an affine function of the composite score inside the band,
not a function of the distance from the nearer threshold. -/
theorem confidence_not_distance_function :
    distance_to_nearer_threshold 0.45 = distance_to_nearer_threshold 0.55 ∧
    loan_officer_decision 0.45 = "CONDITIONAL" ∧
    loan_officer_decision 0.55 = "CONDITIONAL" ∧
    pyRound2 (loan_officer_confidence 0.45) ≠ pyRound2 (loan_officer_confidence 0.55) := by
  norm_num [distance_to_nearer_threshold, loan_officer_decision, loan_officer_confidence,
    pyRound2, rhe, Int.fract, min_def, max_def, abs]

/-- C8 (amended): the Loan Officer maps composite_score ≥ 0.6 to APPROVED,
0.4 ≤ composite_score < 0.6 to CONDITIONAL and lower scores to REJECTED;
for every composite_score in [0,1] the reported confidence lies in
[0.6, 0.95]; inside the CONDITIONAL band the confidence is the affine
function 0.65 + 0.15·composite_score of the score (not of the distance
from the nearer threshold). -/
theorem loan_officer_thresholds_and_confidence (cs : ℚ) (h0 : 0 ≤ cs) (h1 : cs ≤ 1) :
    (cs ≥ 0.6 → loan_officer_decision cs = "APPROVED") ∧
    (0.4 ≤ cs → cs < 0.6 → loan_officer_decision cs = "CONDITIONAL") ∧
    (cs < 0.4 → loan_officer_decision cs = "REJECTED") ∧
    (0.6 ≤ pyRound2 (loan_officer_confidence cs) ∧
      pyRound2 (loan_officer_confidence cs) ≤ 0.95) ∧
    (0.4 ≤ cs → cs < 0.6 → loan_officer_confidence cs = 0.65 + cs * 0.15) := by
  have hconf : 0.6 ≤ loan_officer_confidence cs ∧ loan_officer_confidence cs ≤ 0.95 := by
    unfold loan_officer_confidence
    split_ifs with hA hB
    · constructor
      · exact le_min (by norm_num) (by linarith)
      · exact min_le_left _ _
    · constructor <;> push_neg at hA <;> linarith
    · push_neg at hA hB
      constructor <;> linarith
  have hb := pyRound2_bounds (a := 60) (b := 95) (q := loan_officer_confidence cs)
    (by push_cast; linarith [hconf.1]) (by push_cast; linarith [hconf.2])
  refine ⟨?_, ?_, ?_, ?_, ?_⟩
  · intro h
    unfold loan_officer_decision
    rw [if_pos h]
  · intro ha hb'
    unfold loan_officer_decision
    rw [if_neg (by intro x; change (0.6 : ℚ) ≤ cs at x; linarith), if_pos (by exact ha)]
  · intro ha
    unfold loan_officer_decision
    rw [if_neg (by intro x; change (0.6 : ℚ) ≤ cs at x; linarith),
      if_neg (by intro x; change (0.4 : ℚ) ≤ cs at x; linarith)]
  · constructor
    · have := hb.1
      norm_num at this ⊢
      linarith
    · have := hb.2
      norm_num at this ⊢
      linarith
  · intro ha hb'
    unfold loan_officer_confidence
    rw [if_neg (by intro x; change (0.6 : ℚ) ≤ cs at x; linarith), if_pos (by exact ha)]

theorem loan_officer_thresholds_and_confidence_witness :
    (0 : ℚ) ≤ 0.55 ∧ (0.55 : ℚ) ≤ 1 ∧
    (((0.55 : ℚ) ≥ 0.6 → loan_officer_decision 0.55 = "APPROVED") ∧
      ((0.4 : ℚ) ≤ 0.55 → (0.55 : ℚ) < 0.6 → loan_officer_decision 0.55 = "CONDITIONAL") ∧
      ((0.55 : ℚ) < 0.4 → loan_officer_decision 0.55 = "REJECTED") ∧
      (0.6 ≤ pyRound2 (loan_officer_confidence 0.55) ∧
        pyRound2 (loan_officer_confidence 0.55) ≤ 0.95) ∧
      ((0.4 : ℚ) ≤ 0.55 → (0.55 : ℚ) < 0.6 →
        loan_officer_confidence 0.55 = 0.65 + 0.55 * 0.15)) :=
  ⟨by norm_num, by norm_num,
    loan_officer_thresholds_and_confidence 0.55 (by norm_num) (by norm_num)⟩

/-- C9: if either Field Scout sub-fetch raises an exception, the stage
substitutes that fetch's fallback (weather: `weather_risk_score = 0.5`
with no drought entry; satellite: `ndvi_score = 0.0`), appends the
corresponding `"Weather error: ..."` or `"Satellite error: ..."` note to
the error list, and the pipeline still runs to completion: satellite
data, weather data, risk scores and confidence are all populated and a
decision among APPROVED/CONDITIONAL/REJECTED is emitted. -/
theorem fetch_failure_pipeline_completes (satFetch : Except String SatData)
    (weatherFetch : Except String WeatherData) (e purpose : String)
    (hfail : satFetch = Except.error e ∨ weatherFetch = Except.error e) :
    (weatherFetch = Except.error e →
      (run_multi_agent_analysis satFetch weatherFetch purpose).weather_data =
        some ⟨0.5, none⟩ ∧
      ∃ l, (run_multi_agent_analysis satFetch weatherFetch purpose).errors = some l ∧
        ("Weather error: " ++ e) ∈ l) ∧
    (satFetch = Except.error e →
      (run_multi_agent_analysis satFetch weatherFetch purpose).satellite_data =
        some ⟨0⟩ ∧
      ∃ l, (run_multi_agent_analysis satFetch weatherFetch purpose).errors = some l ∧
        ("Satellite error: " ++ e) ∈ l) ∧
    (run_multi_agent_analysis satFetch weatherFetch purpose).satellite_data ≠ none ∧
    (run_multi_agent_analysis satFetch weatherFetch purpose).weather_data ≠ none ∧
    (run_multi_agent_analysis satFetch weatherFetch purpose).risk_scores ≠ none ∧
    (run_multi_agent_analysis satFetch weatherFetch purpose).confidence ≠ none ∧
    ((run_multi_agent_analysis satFetch weatherFetch purpose).final_decision =
        some "APPROVED" ∨
     (run_multi_agent_analysis satFetch weatherFetch purpose).final_decision =
        some "CONDITIONAL" ∨
     (run_multi_agent_analysis satFetch weatherFetch purpose).final_decision =
        some "REJECTED") := by
  have hdec : ∀ c : ℚ, loan_officer_decision c = "APPROVED" ∨
      loan_officer_decision c = "CONDITIONAL" ∨ loan_officer_decision c = "REJECTED" := by
    intro c
    unfold loan_officer_decision
    split_ifs <;> simp
  refine ⟨?_, ?_, ?_, ?_, ?_, ?_, ?_⟩
  · intro hw
    subst hw
    cases satFetch <;>
      simp [run_multi_agent_analysis, field_scout_agent, risk_analyst_agent,
        loan_officer_agent, initial_state]
  · intro hs
    subst hs
    cases weatherFetch <;>
      simp [run_multi_agent_analysis, field_scout_agent, risk_analyst_agent,
        loan_officer_agent, initial_state]
  · cases satFetch <;> cases weatherFetch <;>
      simp [run_multi_agent_analysis, field_scout_agent, risk_analyst_agent,
        loan_officer_agent, initial_state]
  · cases satFetch <;> cases weatherFetch <;>
      simp [run_multi_agent_analysis, field_scout_agent, risk_analyst_agent,
        loan_officer_agent, initial_state]
  · cases satFetch <;> cases weatherFetch <;>
      simp [run_multi_agent_analysis, field_scout_agent, risk_analyst_agent,
        loan_officer_agent, initial_state]
  · cases satFetch <;> cases weatherFetch <;>
      simp [run_multi_agent_analysis, field_scout_agent, risk_analyst_agent,
        loan_officer_agent, initial_state]
  · cases satFetch <;> cases weatherFetch <;>
      simp [run_multi_agent_analysis, field_scout_agent, risk_analyst_agent,
        loan_officer_agent, initial_state] <;>
      exact hdec _

theorem fetch_failure_pipeline_completes_witness :
    ((Except.error "boom" : Except String SatData) = Except.error "boom" ∨
      (Except.ok ⟨0.3, some 0.2⟩ : Except String WeatherData) = Except.error "boom") ∧
    (((Except.ok ⟨0.3, some 0.2⟩ : Except String WeatherData) = Except.error "boom" →
      (run_multi_agent_analysis (Except.error "boom") (Except.ok ⟨0.3, some 0.2⟩)
        "seeds").weather_data = some ⟨0.5, none⟩ ∧
      ∃ l, (run_multi_agent_analysis (Except.error "boom") (Except.ok ⟨0.3, some 0.2⟩)
        "seeds").errors = some l ∧ ("Weather error: " ++ "boom") ∈ l) ∧
    ((Except.error "boom" : Except String SatData) = Except.error "boom" →
      (run_multi_agent_analysis (Except.error "boom") (Except.ok ⟨0.3, some 0.2⟩)
        "seeds").satellite_data = some ⟨0⟩ ∧
      ∃ l, (run_multi_agent_analysis (Except.error "boom") (Except.ok ⟨0.3, some 0.2⟩)
        "seeds").errors = some l ∧ ("Satellite error: " ++ "boom") ∈ l) ∧
    (run_multi_agent_analysis (Except.error "boom") (Except.ok ⟨0.3, some 0.2⟩)
      "seeds").satellite_data ≠ none ∧
    (run_multi_agent_analysis (Except.error "boom") (Except.ok ⟨0.3, some 0.2⟩)
      "seeds").weather_data ≠ none ∧
    (run_multi_agent_analysis (Except.error "boom") (Except.ok ⟨0.3, some 0.2⟩)
      "seeds").risk_scores ≠ none ∧
    (run_multi_agent_analysis (Except.error "boom") (Except.ok ⟨0.3, some 0.2⟩)
      "seeds").confidence ≠ none ∧
    ((run_multi_agent_analysis (Except.error "boom") (Except.ok ⟨0.3, some 0.2⟩)
        "seeds").final_decision = some "APPROVED" ∨
     (run_multi_agent_analysis (Except.error "boom") (Except.ok ⟨0.3, some 0.2⟩)
        "seeds").final_decision = some "CONDITIONAL" ∨
     (run_multi_agent_analysis (Except.error "boom") (Except.ok ⟨0.3, some 0.2⟩)
        "seeds").final_decision = some "REJECTED")) :=
  ⟨Or.inl rfl, fetch_failure_pipeline_completes (Except.error "boom")
    (Except.ok ⟨0.3, some 0.2⟩) "boom" "seeds" (Or.inl rfl)⟩

/-- C10: at composite score exactly 0.6 the two classifications disagree:
the Risk Analyst labels MEDIUM (LOW needs a strictly greater score) while
the Loan Officer approves (APPROVED needs ≥ 0.6); a pipeline run whose
composite score is exactly 0.6 emits decision APPROVED together with
risk level MEDIUM. -/
theorem composite_boundary_dual_labels :
    risk_analyst_risk_level 0.6 = "MEDIUM" ∧
    (∀ c : ℚ, risk_analyst_risk_level c = "LOW" ↔ c > 0.6) ∧
    loan_officer_decision 0.6 = "APPROVED" ∧
    (∀ c : ℚ, loan_officer_decision c = "APPROVED" ↔ c ≥ 0.6) ∧
    (run_multi_agent_analysis (.ok ⟨0.48⟩) (.ok ⟨0.4, some 0.4⟩) "p").final_decision =
      some "APPROVED" ∧
    ((run_multi_agent_analysis (.ok ⟨0.48⟩) (.ok ⟨0.4, some 0.4⟩) "p").risk_scores).map
      RiskScores.risk_level = some "MEDIUM" := by
  refine ⟨by norm_num [risk_analyst_risk_level], ?_,
    by norm_num [loan_officer_decision], ?_, ?_, ?_⟩
  · intro c
    unfold risk_analyst_risk_level
    split_ifs with g1 g2 <;> simp_all
  · intro c
    unfold loan_officer_decision
    split_ifs with g1 g2 <;> simp_all
  · norm_num [run_multi_agent_analysis, field_scout_agent, risk_analyst_agent,
      loan_officer_agent, initial_state, loan_officer_decision, loan_officer_confidence,
      risk_analyst_risk_level, pyRound3, pyRound2, rhe, Int.fract, min_def, max_def]
  · norm_num [run_multi_agent_analysis, field_scout_agent, risk_analyst_agent,
      loan_officer_agent, initial_state, loan_officer_decision, loan_officer_confidence,
      risk_analyst_risk_level, pyRound3, pyRound2, rhe, Int.fract, min_def, max_def]

end GreenChain
